import Mathlib

/-!
Verification of the SRG layout language and renderer.

This file is a shallow embedding of the repository's layout parser
(src/layout.rs) and HTML renderer (src/build.rs).  Rust strings are
modelled by Lean strings, `Vec` by `List`, `Option` by `Option`, and
`anyhow::Result` by `Except String`.  Mutation of the output `String`
buffer is modelled by returning the emitted fragment and concatenating.
-/

namespace SRG

/-! ## Character helpers -/

/-- The double-quote character used by the token splitter. -/
def quoteChar : Char := Char.ofNat 34

/-- The single-quote (apostrophe) character escaped by escape_html. -/
def aposChar : Char := Char.ofNat 39

/-- Rust's char::is_whitespace: the Unicode White_Space property. -/
def isRustWhitespace (c : Char) : Bool :=
  c.toNat = 0x09 || c.toNat = 0x0A || c.toNat = 0x0B || c.toNat = 0x0C ||
  c.toNat = 0x0D || c.toNat = 0x20 || c.toNat = 0x85 || c.toNat = 0xA0 ||
  c.toNat = 0x1680 || (0x2000 ≤ c.toNat && c.toNat ≤ 0x200A) ||
  c.toNat = 0x2028 || c.toNat = 0x2029 || c.toNat = 0x202F ||
  c.toNat = 0x205F || c.toNat = 0x3000

/-- Leading-whitespace removal on character lists (str::trim_start). -/
def trimStartL (cs : List Char) : List Char := cs.dropWhile isRustWhitespace

/-- Trailing-whitespace removal on character lists (str::trim_end). -/
def trimEndL (cs : List Char) : List Char :=
  (cs.reverse.dropWhile isRustWhitespace).reverse

/-- str::trim_start. -/
def rustTrimStart (s : String) : String := ⟨trimStartL s.data⟩

/-- str::trim. -/
def rustTrim (s : String) : String := ⟨trimEndL (trimStartL s.data)⟩

/-- UTF-8 byte length of a character list (str::len counts bytes). -/
def utf8Len (cs : List Char) : Nat := (cs.map Char.utf8Size).sum

/-- `line.len() - line.trim_start().len()` from Layout::parse:
the indentation width of a line, measured in bytes of leading whitespace. -/
def indent_level (line : String) : Nat :=
  utf8Len line.data - utf8Len (trimStartL line.data)

/-- Helper for splitting on a newline character; produces the final
(possibly empty) segment as well. -/
def splitNewlineAux : List Char → List Char → List String
  | [], acc => [⟨acc.reverse⟩]
  | c :: cs, acc =>
    if c = '\n' then ⟨acc.reverse⟩ :: splitNewlineAux cs []
    else splitNewlineAux cs (c :: acc)

/-- Rust's str::lines: split on newline, dropping a final empty segment
produced by a trailing newline, and stripping one trailing carriage
return from each line. -/
def rustLines (s : String) : List String :=
  let parts := splitNewlineAux s.data []
  let parts :=
    if s.data = [] then []
    else if s.data.getLast? = some '\n' then parts.dropLast
    else parts
  parts.map (fun l =>
    if l.data.getLast? = some '\x0d' then ⟨l.data.dropLast⟩ else l)

/-! ## Layout data model (src/layout.rs) -/

/-- One token of a field line: a field reference (FieldPart::Field) or a
literal text span (FieldPart::Literal). -/
inductive FieldPart where
  | field (name : String)
  | literal (text : String)
  deriving DecidableEq, Repr

/-- A field: an ordered token list with an optional class-name override. -/
structure Field where
  parts : List FieldPart
  class_name : Option String
  deriving DecidableEq, Repr

/-- Field::new. -/
def Field.new (parts : List FieldPart) : Field := ⟨parts, none⟩

/-- Field::with_class. -/
def Field.with_class (parts : List FieldPart) (class_name : String) : Field :=
  ⟨parts, some class_name⟩

/-- A container: a class label grouping a list of fields. -/
structure Container where
  class_name : String
  fields : List Field
  deriving DecidableEq, Repr

/-- An entry of a section: a field or a container. -/
inductive FieldOrContainer where
  | field (f : Field)
  | container (c : Container)
  deriving DecidableEq, Repr

/-- A named section holding an ordered entry list. -/
structure Section where
  name : String
  fields : List FieldOrContainer
  deriving DecidableEq, Repr

/-- A layout: an ordered list of sections. -/
structure Layout where
  sections : List Section
  deriving DecidableEq, Repr

/-! ## Token splitter (parse_field_parts) -/

/-- The character loop of parse_field_parts.  State: remaining input,
accumulation buffer `current`, the `in_quote` flag, and tokens emitted
so far. -/
def parseFieldPartsAux : List Char → String → Bool → List FieldPart → List FieldPart
  | [], current, inQuote, parts =>
    if current = "" then parts
    else if inQuote then parts ++ [FieldPart.literal current]
    else parts ++ [FieldPart.field current]
  | c :: cs, current, inQuote, parts =>
    if c = quoteChar then
      if inQuote then
        parseFieldPartsAux cs "" false (parts ++ [FieldPart.literal current])
      else if current = "" then
        parseFieldPartsAux cs "" true parts
      else
        parseFieldPartsAux cs "" true (parts ++ [FieldPart.field current])
    else if c = ' ' then
      if inQuote then
        parseFieldPartsAux cs (current.push c) inQuote parts
      else if current = "" then
        parseFieldPartsAux cs "" false parts
      else
        parseFieldPartsAux cs "" false (parts ++ [FieldPart.field current])
    else
      parseFieldPartsAux cs (current.push c) inQuote parts

/-- parse_field_parts from src/layout.rs: split one trimmed layout line
into literal and field-reference tokens. -/
def parse_field_parts (line : String) : List FieldPart :=
  parseFieldPartsAux line.data "" false []

/-! ## Line classification (Layout::parse helpers) -/

/-- Whether a string contains a given character (str::contains(char)). -/
def strContainsChar (s : String) (c : Char) : Bool := s.data.contains c

/-- str::trim_end_matches(':'): drop every trailing colon. -/
def dropTrailingColons (cs : List Char) : List Char :=
  (cs.reverse.dropWhile (fun c => c = ':')).reverse

/-- The container-header test at indent 2: the trimmed line ends with a
colon and the name before it (after trim_end_matches(':').trim()) is
non-empty and free of quotes and spaces.  Returns the container name. -/
def containerHeaderName (trimmed : String) : Option String :=
  if trimmed.data.getLast? = some ':' then
    let cname := rustTrim ⟨dropTrailingColons trimmed.data⟩
    if cname ≠ "" && !strContainsChar cname quoteChar && !strContainsChar cname ' ' then
      some cname
    else none
  else none

/-- Split a character list at the first colon (str::find(':')). -/
def splitAtFirstColon : List Char → Option (List Char × List Char)
  | [] => none
  | c :: cs =>
    if c = ':' then some ([], cs)
    else
      match splitAtFirstColon cs with
      | some (a, b) => some (c :: a, b)
      | none => none

/-- The field classification shared by indent 2 and the in-container
indent ≥ 4 case: a `class-name: definition` line becomes a field with a
class override; anything else is a plain field. -/
def classifyFieldLine (trimmed : String) : Field :=
  match splitAtFirstColon trimmed.data with
  | some (before, after) =>
    let b := rustTrim ⟨before⟩
    let a := rustTrim ⟨after⟩
    if b ≠ "" && !strContainsChar b quoteChar && !strContainsChar b ' ' && a ≠ "" then
      Field.with_class (parse_field_parts a) b
    else Field.new (parse_field_parts trimmed)
  | none => Field.new (parse_field_parts trimmed)

/-! ## Layout parser state machine (Layout::parse) -/

/-- The loop state of Layout::parse. -/
structure ParseState where
  sections : List Section
  currentSection : Option Section
  currentContainer : Option Container
  deriving DecidableEq, Repr

/-- Closing an open container: `current_container.take()` always removes
the container; it is appended to the current section only when a section
is open (the tuple pattern drops it otherwise). -/
def closeContainer (st : ParseState) : ParseState :=
  match st.currentContainer, st.currentSection with
  | some c, some s =>
    ⟨st.sections, some ⟨s.name, s.fields ++ [FieldOrContainer.container c]⟩, none⟩
  | some _, none => ⟨st.sections, none, none⟩
  | none, _ => st

/-- Closing an open section into the layout. -/
def closeSection (st : ParseState) : ParseState :=
  match st.currentSection with
  | some s => ⟨st.sections ++ [s], none, st.currentContainer⟩
  | none => st

/-- One iteration of the Layout::parse line loop. -/
def parseLine (st : ParseState) (line : String) : ParseState :=
  if rustTrim line = "" then st
  else if indent_level line = 0 then
    let st1 := closeSection (closeContainer st)
    ⟨st1.sections, some ⟨rustTrim line, []⟩, st1.currentContainer⟩
  else if indent_level line = 2 then
    let st1 := closeContainer st
    match st1.currentSection with
    | none => st1
    | some sec =>
      match containerHeaderName (rustTrim line) with
      | some cname => ⟨st1.sections, some sec, some ⟨cname, []⟩⟩
      | none =>
        ⟨st1.sections,
         some ⟨sec.name, sec.fields ++
           [FieldOrContainer.field (classifyFieldLine (rustTrim line))]⟩,
         st1.currentContainer⟩
  else if 4 ≤ indent_level line then
    match st.currentContainer with
    | some con =>
      ⟨st.sections, st.currentSection,
       some ⟨con.class_name, con.fields ++ [classifyFieldLine (rustTrim line)]⟩⟩
    | none =>
      match st.currentSection with
      | some sec =>
        ⟨st.sections,
         some ⟨sec.name, sec.fields ++
           [FieldOrContainer.field (Field.new (parse_field_parts (rustTrim line)))]⟩,
         none⟩
      | none => st
  else st

/-- The initial parser state. -/
def parseInit : ParseState := ⟨[], none, none⟩

/-- The end-of-input sequence of Layout::parse: close any open container,
then any open section. -/
def finalize (st : ParseState) : List Section :=
  let st1 := closeContainer st
  match st1.currentSection with
  | some s => st1.sections ++ [s]
  | none => st1.sections

/-- Layout::parse.  The Rust function returns Result<Layout> but its only
exit is `Ok(Layout { sections })`. -/
def Layout.parse (content : String) : Except String Layout :=
  Except.ok ⟨finalize ((rustLines content).foldl parseLine parseInit)⟩

/-! ## Document model

Modelled from the spec: the document model comes from the external jobl
crate, which the spec (§1) treats as an out-of-scope collaborator whose
validated in-memory object is consumed read-only.  The field lists below
are those of §3/§6 together with the fields build.rs reads.  The skills
mapping is an ordered category-to-skill-list association list. -/

structure Person where
  name : String
  headline : Option String
  email : Option String
  phone : Option String
  location : Option String
  website : Option String
  summary : Option String
  deriving DecidableEq, Repr

structure ExperienceItem where
  title : String
  company : String
  location : Option String
  start : Option String
  end_ : Option String
  summary : Option String
  highlights : List String
  technologies : List String
  deriving DecidableEq, Repr

structure ProjectItem where
  name : String
  url : Option String
  summary : Option String
  deriving DecidableEq, Repr

structure EducationItem where
  degree : String
  institution : String
  location : Option String
  start : Option String
  end_ : Option String
  details : List String
  deriving DecidableEq, Repr

structure JoblDocument where
  person : Person
  skills : Option (List (String × List String))
  experience : List ExperienceItem
  projects : List ProjectItem
  education : List EducationItem
  deriving DecidableEq, Repr

/-! ## Renderer (src/build.rs) -/

/-- str::replace with a single-character pattern. -/
def replaceChar (s : String) (c : Char) (r : String) : String :=
  String.join (s.data.map (fun ch => if ch = c then r else String.singleton ch))

/-- escape_html from src/build.rs: the five sequential replacements. -/
def escape_html (s : String) : String :=
  replaceChar (replaceChar (replaceChar (replaceChar
    (replaceChar s '&' "&amp;") '<' "&lt;") '>' "&gt;") quoteChar "&quot;")
    aposChar "&#39;"

/-- get_person_field_value. -/
def get_person_field_value (doc : JoblDocument) (field : String) : Option String :=
  if field = "name" then some doc.person.name
  else if field = "headline" then doc.person.headline
  else if field = "email" then doc.person.email
  else if field = "phone" then doc.person.phone
  else if field = "location" then doc.person.location
  else if field = "website" then doc.person.website
  else none

/-- get_experience_field_value. -/
def get_experience_field_value (exp : ExperienceItem) (field : String) : Option String :=
  if field = "title" then some exp.title
  else if field = "company" then some exp.company
  else if field = "location" then exp.location
  else if field = "start" then exp.start
  else if field = "end" then exp.end_
  else if field = "summary" then exp.summary
  else none

/-- get_project_field_value. -/
def get_project_field_value (proj : ProjectItem) (field : String) : Option String :=
  if field = "name" then some proj.name
  else if field = "url" then proj.url
  else if field = "summary" then proj.summary
  else none

/-- get_education_field_value. -/
def get_education_field_value (edu : EducationItem) (field : String) : Option String :=
  if field = "degree" then some edu.degree
  else if field = "institution" then some edu.institution
  else if field = "location" then edu.location
  else if field = "start" then edu.start
  else if field = "end" then edu.end_
  else none

/-- The generic inline-composition loop shared by the four field
renderers: literals emitted escaped, references resolved and escaped,
absent values contributing the empty string. -/
def renderInlineParts (resolve : String → Option String) (parts : List FieldPart) : String :=
  String.join (parts.map (fun p =>
    match p with
    | FieldPart.literal text => escape_html text
    | FieldPart.field name =>
      match resolve name with
      | some v => escape_html v
      | none => ""))

/-- render_person_field.  Note that the known-field branch for "name"
interpolates doc.person.name without escape_html, and that there is no
empty-parts guard (unlike the other three field renderers). -/
def render_person_field (doc : JoblDocument) (field : Field) : String :=
  match field.parts with
  | [FieldPart.field name] =>
    if name = "name" then
      "      <h1 class=\"person-name\">" ++ doc.person.name ++ "</h1>\n"
    else if name = "headline" then
      match doc.person.headline with
      | some headline =>
        "      <p class=\"person-headline\">" ++ escape_html headline ++ "</p>\n"
      | none => ""
    else if name = "email" then
      match doc.person.email with
      | some email =>
        "      <span class=\"person-email\">" ++ escape_html email ++ "</span>\n"
      | none => ""
    else if name = "phone" then
      match doc.person.phone with
      | some phone =>
        "      <span class=\"person-phone\">" ++ escape_html phone ++ "</span>\n"
      | none => ""
    else if name = "location" then
      match doc.person.location with
      | some location =>
        "      <span class=\"person-location\">" ++ escape_html location ++ "</span>\n"
      | none => ""
    else if name = "website" then
      match doc.person.website with
      | some website =>
        "      <a class=\"person-website\" href=\"" ++ escape_html website ++ "\">" ++
          escape_html website ++ "</a>\n"
      | none => ""
    else
      "      <p>" ++ renderInlineParts (get_person_field_value doc) field.parts ++ "</p>\n"
  | _ =>
    "      <p>" ++ renderInlineParts (get_person_field_value doc) field.parts ++ "</p>\n"

/-- Modelled from the spec: build.rs iterates section.fields passing each
entry to the per-entity field renderer, while layout.rs declares the
entries as fields-or-containers; per §9 a container's fields are treated
like a section's fields, with no extra markup. -/
def renderEntryWith (renderField : Field → String) (fc : FieldOrContainer) : String :=
  match fc with
  | FieldOrContainer.field f => renderField f
  | FieldOrContainer.container c => String.join (c.fields.map renderField)

/-- render_person_section. -/
def render_person_section (doc : JoblDocument) (sec : Section) : String :=
  "    <header id=\"person\" class=\"section section-person\">\n" ++
  String.join (sec.fields.map (renderEntryWith (render_person_field doc))) ++
  "    </header>\n"

/-- render_summary_section. -/
def render_summary_section (doc : JoblDocument) : String :=
  match doc.person.summary with
  | some summary =>
    "    <section id=\"summary\" class=\"section section-summary\">\n" ++
    "      <h2>Summary</h2>\n" ++
    "      <p class=\"summary-text\">" ++ escape_html summary ++ "</p>\n" ++
    "    </section>\n"
  | none => ""

/-- render_skills_section: one line per category, the skill list joined
with a comma separator; the layout section's own fields are never read. -/
def render_skills_section (doc : JoblDocument) : String :=
  match doc.skills with
  | some skills =>
    if skills = [] then ""
    else
      "    <section id=\"skills\" class=\"section section-skills\">\n" ++
      "      <h2>Skills</h2>\n" ++
      String.join (skills.map (fun cat =>
        "      <p class=\"skills-category\"><strong class=\"skills-category-name\">" ++
        escape_html cat.1 ++ ":</strong> <span class=\"skills-items\">" ++
        String.intercalate ", " (cat.2.map escape_html) ++ "</span></p>\n")) ++
      "    </section>\n"
  | none => ""

/-- render_experience_field. -/
def render_experience_field (exp : ExperienceItem) (field : Field) : String :=
  match field.parts with
  | [] => ""
  | [FieldPart.field name] =>
    if name = "title" then
      "        <h3 class=\"experience-title\">" ++ escape_html exp.title ++ "</h3>\n"
    else if name = "company" then
      "        <p class=\"experience-company\">" ++ escape_html exp.company ++ "</p>\n"
    else if name = "summary" then
      match exp.summary with
      | some summary =>
        "        <p class=\"experience-summary\">" ++ escape_html summary ++ "</p>\n"
      | none => ""
    else if name = "highlights" then
      if exp.highlights = [] then ""
      else
        "        <ul class=\"experience-highlights\">\n" ++
        String.join (exp.highlights.map (fun h =>
          "          <li>" ++ escape_html h ++ "</li>\n")) ++
        "        </ul>\n"
    else
      "        <p>" ++ renderInlineParts (get_experience_field_value exp) field.parts ++ "</p>\n"
  | _ =>
    "        <p>" ++ renderInlineParts (get_experience_field_value exp) field.parts ++ "</p>\n"

/-- render_experience_section. -/
def render_experience_section (doc : JoblDocument) (sec : Section) : String :=
  if doc.experience = [] then ""
  else
    "    <section id=\"experience\" class=\"section section-experience\">\n" ++
    "      <h2>Experience</h2>\n" ++
    String.join (doc.experience.map (fun exp =>
      "      <div class=\"experience-item\">\n" ++
      String.join (sec.fields.map (renderEntryWith (render_experience_field exp))) ++
      "      </div>\n")) ++
    "    </section>\n"

/-- render_project_field. -/
def render_project_field (proj : ProjectItem) (field : Field) : String :=
  match field.parts with
  | [] => ""
  | [FieldPart.field name] =>
    if name = "name" then
      "        <h3 class=\"projects-name\">" ++ escape_html proj.name ++ "</h3>\n"
    else if name = "url" then
      match proj.url with
      | some url =>
        "        <p class=\"projects-url\"><a href=\"" ++ escape_html url ++ "\">" ++
          escape_html url ++ "</a></p>\n"
      | none => ""
    else if name = "summary" then
      match proj.summary with
      | some summary =>
        "        <p class=\"projects-summary\">" ++ escape_html summary ++ "</p>\n"
      | none => ""
    else
      "        <p>" ++ renderInlineParts (get_project_field_value proj) field.parts ++ "</p>\n"
  | _ =>
    "        <p>" ++ renderInlineParts (get_project_field_value proj) field.parts ++ "</p>\n"

/-- render_projects_section. -/
def render_projects_section (doc : JoblDocument) (sec : Section) : String :=
  if doc.projects = [] then ""
  else
    "    <section id=\"projects\" class=\"section section-projects\">\n" ++
    "      <h2>Projects</h2>\n" ++
    String.join (doc.projects.map (fun proj =>
      "      <div class=\"projects-item\">\n" ++
      String.join (sec.fields.map (renderEntryWith (render_project_field proj))) ++
      "      </div>\n")) ++
    "    </section>\n"

/-- render_education_field. -/
def render_education_field (edu : EducationItem) (field : Field) : String :=
  match field.parts with
  | [] => ""
  | [FieldPart.field name] =>
    if name = "degree" then
      "        <h3 class=\"education-degree\">" ++ escape_html edu.degree ++ "</h3>\n"
    else if name = "institution" then
      "        <p class=\"education-institution\">" ++ escape_html edu.institution ++ "</p>\n"
    else if name = "details" then
      if edu.details = [] then ""
      else
        "        <ul class=\"education-details\">\n" ++
        String.join (edu.details.map (fun d =>
          "          <li>" ++ escape_html d ++ "</li>\n")) ++
        "        </ul>\n"
    else
      "        <p>" ++ renderInlineParts (get_education_field_value edu) field.parts ++ "</p>\n"
  | _ =>
    "        <p>" ++ renderInlineParts (get_education_field_value edu) field.parts ++ "</p>\n"

/-- render_education_section. -/
def render_education_section (doc : JoblDocument) (sec : Section) : String :=
  if doc.education = [] then ""
  else
    "    <section id=\"education\" class=\"section section-education\">\n" ++
    "      <h2>Education</h2>\n" ++
    String.join (doc.education.map (fun edu =>
      "      <div class=\"education-item\">\n" ++
      String.join (sec.fields.map (renderEntryWith (render_education_field edu))) ++
      "      </div>\n")) ++
    "    </section>\n"

/-- Modelled from the spec: the style-sheet file src/templates/minimal.css
pulled in with include_str is not among the provided sources; the spec
(§1) treats style-sheet assets as opaque static text blobs selected by
template name, so its content is an arbitrary fixed constant here. -/
def minimal_css : String := "  /* minimal template static style asset */\n"

/-- The per-section dispatch of the generate_minimal_html loop:
unrecognized section names are silently skipped. -/
def render_section (doc : JoblDocument) (sec : Section) : String :=
  if sec.name = "person" then render_person_section doc sec
  else if sec.name = "summary" then render_summary_section doc
  else if sec.name = "skills" then render_skills_section doc
  else if sec.name = "experience" then render_experience_section doc sec
  else if sec.name = "projects" then render_projects_section doc sec
  else if sec.name = "education" then render_education_section doc sec
  else ""

/-- generate_minimal_html.  The Rust function returns Result<String> but
always returns Ok; the Ok wrapper lives in generate_html here.  Note the
title interpolates doc.person.name without escaping. -/
def generate_minimal_html (doc : JoblDocument) (layout : Layout) : String :=
  "<!DOCTYPE html>\n" ++
  "<html lang=\"en\">\n" ++
  "<head>\n" ++
  "  <meta charset=\"UTF-8\">\n" ++
  "  <meta name=\"viewport\" content=\"width=device-width, initial-scale=1.0\">\n" ++
  "  <title>" ++ doc.person.name ++ "</title>\n" ++
  "  <style>\n" ++
  minimal_css ++
  "  </style>\n" ++
  "</head>\n" ++
  "<body>\n" ++
  "  <main>\n" ++
  String.join (layout.sections.map (render_section doc)) ++
  "  </main>\n" ++
  "</body>\n" ++
  "</html>\n"

/-- generate_html: dispatch on the template selector. -/
def generate_html (doc : JoblDocument) (template : String) (layout : Layout) :
    Except String String :=
  if template = "minimal" then Except.ok (generate_minimal_html doc layout)
  else Except.error ("Unknown template: " ++ template)

/-! ## Substring occurrence -/

/-- Whether the second list starts with the first. -/
def listStartsWith : List Char → List Char → Bool
  | _, [] => true
  | [], _ :: _ => false
  | c :: cs, p :: ps => c = p && listStartsWith cs ps

/-- Whether the pattern occurs contiguously inside the list. -/
def listHasSub (pat : List Char) : List Char → Bool
  | [] => pat.isEmpty
  | c :: cs => listStartsWith (c :: cs) pat || listHasSub pat cs

/-- Whether pat occurs as a contiguous substring of s. -/
def strOccurs (pat s : String) : Bool := listHasSub pat.data s.data

/-! ## Concrete fixtures (the document of tests/integration_test.rs) -/

/-- The document built by create_test_document in the integration tests. -/
def testDoc : JoblDocument :=
  { person := { name := "Test User", headline := some "Software Engineer",
                email := some "test@example.com", phone := some "555-1234",
                location := some "Test City", website := some "https://example.com",
                summary := some "Test summary" },
    skills := some [("Languages", ["Rust"])],
    experience := [{ title := "Engineer", company := "Test Co", location := none,
                     start := some "2020", end_ := some "2024",
                     summary := some "Did things",
                     highlights := ["Built stuff"], technologies := [] }],
    projects := [],
    education := [{ degree := "BS CS", institution := "Test U", location := none,
                    start := some "2016", end_ := some "2020", details := [] }] }

/-- testDoc with a markup-significant person name. -/
def evilDoc : JoblDocument :=
  { testDoc with person := { testDoc.person with name := "Tom & <Jerry>" } }

/-- The layout whose only field is the single reference name in a person
section (the parse of "person\n  name\n"). -/
def nameOnlyLayout : Layout :=
  ⟨[⟨"person", [FieldOrContainer.field (Field.new [FieldPart.field "name"])]⟩]⟩

/-- A layout with an empty skills section. -/
def skillsLayoutA : Layout := ⟨[⟨"skills", []⟩]⟩

/-- A layout whose skills section lists a field. -/
def skillsLayoutB : Layout :=
  ⟨[⟨"skills", [FieldOrContainer.field (Field.new [FieldPart.field "anything"])]⟩]⟩

/-! ## Reference grouping for flat layouts (spec view for C5) -/

/-- Right-fold grouping of a blank-free flat line list: an indent-0 line
starts a section named by its trimmed text whose fields are exactly the
classified following non-indent-0 lines, in source order.  The first
component carries field lines seen before any section header. -/
def gatherSections (ls : List String) : List FieldOrContainer × List Section :=
  ls.foldr (fun l acc =>
    if indent_level l = 0 then
      ([], ⟨rustTrim l, acc.1⟩ :: acc.2)
    else
      (FieldOrContainer.field (classifyFieldLine (rustTrim l)) :: acc.1, acc.2))
    ([], [])

/-- The sections obtained by grouping: one per indent-0 line; field lines
before the first indent-0 line belong to no section. -/
def buildSections (ls : List String) : List Section := (gatherSections ls).2

/-- The non-blank lines of a layout text. -/
def nonBlankLines (content : String) : List String :=
  (rustLines content).filter (fun l => rustTrim l != "")

/-! ## Theorems -/

/-- A blank line leaves the parser state unchanged. -/
theorem parseLine_blank (st : ParseState) (l : String) (h : rustTrim l = "") :
    parseLine st l = st := by
  simp [parseLine, h]

/-- An indent-0 line closes the current section (no container open) and
opens a new one named by the trimmed line. -/
theorem parseLine_indent0 (secs : List Section) (cur : Option Section) (l : String)
    (hb : rustTrim l ≠ "") (h0 : indent_level l = 0) :
    parseLine ⟨secs, cur, none⟩ l =
      ⟨secs ++ (match cur with | some s => [s] | none => []),
       some ⟨rustTrim l, []⟩, none⟩ := by
  cases cur <;> simp [parseLine, hb, h0, closeContainer, closeSection]

/-- An indent-2 non-container-header line appends a classified field to
the open section. -/
theorem parseLine_indent2_some (secs : List Section) (s : Section) (l : String)
    (hb : rustTrim l ≠ "") (h2 : indent_level l = 2)
    (hh : containerHeaderName (rustTrim l) = none) :
    parseLine ⟨secs, some s, none⟩ l =
      ⟨secs,
       some ⟨s.name, s.fields ++
         [FieldOrContainer.field (classifyFieldLine (rustTrim l))]⟩,
       none⟩ := by
  simp [parseLine, hb, h2, hh, closeContainer]

/-- An indent-2 line before any section header is dropped. -/
theorem parseLine_indent2_none (secs : List Section) (l : String)
    (hb : rustTrim l ≠ "") (h2 : indent_level l = 2) :
    parseLine ⟨secs, none, none⟩ l = ⟨secs, none, none⟩ := by
  simp [parseLine, hb, h2, closeContainer]

/-- Unfolding lemma for the reference grouping. -/
theorem gatherSections_cons (l : String) (ls : List String) :
    gatherSections (l :: ls) =
      if indent_level l = 0 then
        ([], ⟨rustTrim l, (gatherSections ls).1⟩ :: (gatherSections ls).2)
      else
        (FieldOrContainer.field (classifyFieldLine (rustTrim l)) ::
           (gatherSections ls).1,
         (gatherSections ls).2) :=
  rfl

/-- Invariant of the Layout::parse loop over flat line lists: starting
from closed sections `secs` with optional open section `cur` and no open
container, parsing then finalizing agrees with the reference grouping. -/
theorem parse_flat_aux (ls : List String)
    (hls : ∀ l ∈ ls, rustTrim l ≠ "" →
      indent_level l = 0 ∨
        (indent_level l = 2 ∧ containerHeaderName (rustTrim l) = none)) :
    ∀ (secs : List Section) (cur : Option Section),
      finalize (ls.foldl parseLine ⟨secs, cur, none⟩) =
        secs ++ (match cur with
          | none => (gatherSections (ls.filter (fun l => rustTrim l != ""))).2
          | some s =>
            ⟨s.name, s.fields ++
              (gatherSections (ls.filter (fun l => rustTrim l != ""))).1⟩ ::
            (gatherSections (ls.filter (fun l => rustTrim l != ""))).2) := by
  induction ls with
  | nil =>
    intro secs cur
    cases cur with
    | none => simp [finalize, closeContainer, gatherSections]
    | some s => simp [finalize, closeContainer, gatherSections]
  | cons l ls ih =>
    intro secs cur
    have hrest : ∀ x ∈ ls, rustTrim x ≠ "" →
        indent_level x = 0 ∨
          (indent_level x = 2 ∧ containerHeaderName (rustTrim x) = none) :=
      fun x hx => hls x (List.mem_cons_of_mem l hx)
    by_cases hb : rustTrim l = ""
    · have hf : (l :: ls).filter (fun x => rustTrim x != "") =
          ls.filter (fun x => rustTrim x != "") := by
        simp [List.filter_cons, hb]
      rw [List.foldl_cons, parseLine_blank _ _ hb, hf]
      exact ih hrest secs cur
    · have hf : (l :: ls).filter (fun x => rustTrim x != "") =
          l :: ls.filter (fun x => rustTrim x != "") := by
        simp [List.filter_cons, hb]
      rcases hls l (List.mem_cons_self l ls) hb with h0 | ⟨h2, hh⟩
      · rw [List.foldl_cons, parseLine_indent0 secs cur l hb h0,
          ih hrest, hf, gatherSections_cons, if_pos h0]
        cases cur with
        | none => simp
        | some s => simp [List.append_assoc]
      · have hne : ¬ indent_level l = 0 := by
          rw [h2]
          decide
        cases cur with
        | none =>
          rw [List.foldl_cons, parseLine_indent2_none secs l hb h2,
            ih hrest, hf, gatherSections_cons, if_neg hne]
        | some s =>
          rw [List.foldl_cons, parseLine_indent2_some secs s l hb h2 hh,
            ih hrest, hf, gatherSections_cons, if_neg hne]
          simp [List.append_assoc]

/-- C5: for a layout text whose non-blank lines all have indentation
width 0 or 2 and in which no indent-2 line is recognized as a container
header, parsing yields exactly the grouping of the non-blank lines: one
section per indent-0 line, its fields exactly the classified indent-2
lines that follow it, in source order. -/
theorem C5_flat_layout_sections (content : String)
    (h : ∀ l ∈ rustLines content, rustTrim l ≠ "" →
      indent_level l = 0 ∨
        (indent_level l = 2 ∧ containerHeaderName (rustTrim l) = none)) :
    Layout.parse content = Except.ok ⟨buildSections (nonBlankLines content)⟩ := by
  have h2 := parse_flat_aux (rustLines content) h [] none
  simp only [List.nil_append] at h2
  exact congrArg (fun x => Except.ok (Layout.mk x)) h2

set_option maxRecDepth 100000 in
/-- Witness for C5: a concrete flat layout parses to its grouping. -/
theorem C5_flat_layout_sections_witness :
    Layout.parse "person\n  name\n  email\n\nexperience\n  title\n" =
      Except.ok
        ⟨buildSections
          (nonBlankLines "person\n  name\n  email\n\nexperience\n  title\n")⟩ := by
  exact C5_flat_layout_sections _ (by decide)

/-- C3: the token splitter is total (it is a Lean function, defined for
every input line) and satisfies the three required splits; at end of
line a remaining buffer is flushed as a Literal when the quotation flag
is still set and as a Reference otherwise, and an empty buffer is not
flushed. -/
theorem C3_token_splitting :
    parse_field_parts "a \"b\" c" =
      [FieldPart.field "a", FieldPart.literal "b", FieldPart.field "c"] ∧
    parse_field_parts "\" - \"" = [FieldPart.literal " - "] ∧
    parse_field_parts "\"x" = [FieldPart.literal "x"] ∧
    (∀ (inQuote : Bool) (parts : List FieldPart),
      parseFieldPartsAux [] "" inQuote parts = parts) ∧
    (∀ (current : String) (inQuote : Bool) (parts : List FieldPart), current ≠ "" →
      parseFieldPartsAux [] current inQuote parts =
        parts ++ [if inQuote then FieldPart.literal current
                  else FieldPart.field current]) := by
  refine ⟨rfl, rfl, rfl, fun q p => rfl, fun c q p h => ?_⟩
  cases q <;> simp [parseFieldPartsAux, h]

/-- Witness for C3: the end-of-line flush rule applied to the unclosed
buffer x with the quotation flag set. -/
theorem C3_token_splitting_witness :
    parseFieldPartsAux [] "x" true [] = [FieldPart.literal "x"] := by
  have h := C3_token_splitting.2.2.2.2 "x" true [] (by decide)
  simpa using h

/-- C4: Layout::parse returns Ok for every input string; its only exit
is the Ok constructor, so the grammar never fails. -/
theorem C4_layout_parse_never_fails :
    ∀ content : String, ∃ layout : Layout,
      Layout.parse content = Except.ok layout :=
  fun _ => ⟨_, rfl⟩

/-- C9: indentation is measured in bytes of leading whitespace, and a
non-blank line whose indentation width is exactly 1 or exactly 3 leaves
the parser state unchanged: it opens no section or container and adds no
field.  A field line indented with a single tab (width 1) is dropped, and
a two-byte no-break space counts as width 2. -/
theorem C9_odd_indent_lines_discarded :
    (∀ (st : ParseState) (line : String), rustTrim line ≠ "" →
      indent_level line = 1 ∨ indent_level line = 3 → parseLine st line = st) ∧
    Layout.parse "person\n\tname\n" = Layout.parse "person\n" ∧
    indent_level "\tname" = 1 ∧
    indent_level ⟨[Char.ofNat 0xA0, 'x']⟩ = 2 := by
  refine ⟨?_, rfl, rfl, rfl⟩
  intro st line hb hi
  rcases hi with h | h <;> simp [parseLine, hb, h]

/-- Witness for C9: the tab-indented field line leaves the initial state
unchanged. -/
theorem C9_odd_indent_lines_discarded_witness :
    parseLine parseInit "\tname" = parseInit := by
  exact C9_odd_indent_lines_discarded.1 parseInit "\tname" (by decide)
    (Or.inl (by decide))

set_option maxRecDepth 100000 in
/-- C1 (code bug evaluation): the known-field branch for the person name
interpolates doc.person.name without escape_html, so a name containing
markup-significant characters appears raw in the h1 element and in the
rendered page, while escape_html would have rewritten them. -/
theorem C1_person_name_unescaped :
    render_person_field evilDoc (Field.new [FieldPart.field "name"]) =
      "      <h1 class=\"person-name\">Tom & <Jerry></h1>\n" ∧
    escape_html "Tom & <Jerry>" = "Tom &amp; &lt;Jerry&gt;" ∧
    strOccurs "<Jerry>" (generate_minimal_html evilDoc nameOnlyLayout) = true := by
  exact ⟨rfl, rfl, rfl⟩

/-- C2 counterexample: in a person section, a field with zero parts does
not render nothing — render_person_field has no empty-parts guard and
emits an empty inline paragraph element. -/
theorem C2_person_empty_field_counterexample :
    render_person_field testDoc (Field.new []) ≠ "" := by decide

/-- C2 (amended): a zero-part field emits nothing in experience,
projects, and education sections, but in a person section it emits the
empty inline wrapper element. -/
theorem C2_empty_field_rendering (doc : JoblDocument) (exp : ExperienceItem)
    (proj : ProjectItem) (edu : EducationItem) (cn : Option String) :
    render_person_field doc ⟨[], cn⟩ = "      <p></p>\n" ∧
    render_experience_field exp ⟨[], cn⟩ = "" ∧
    render_project_field proj ⟨[], cn⟩ = "" ∧
    render_education_field edu ⟨[], cn⟩ = "" :=
  ⟨rfl, rfl, rfl, rfl⟩

/-- C6: a field that is exactly the single reference highlights (for an
experience item) or details (for an education item) renders an unordered
list with one item per string, in list order, when the list is
non-empty, and emits nothing when the list is empty. -/
theorem C6_list_valued_fields (cn : Option String) (exp : ExperienceItem)
    (edu : EducationItem) :
    (render_experience_field exp ⟨[FieldPart.field "highlights"], cn⟩ =
      if exp.highlights = [] then ""
      else
        "        <ul class=\"experience-highlights\">\n" ++
        String.join (exp.highlights.map (fun h =>
          "          <li>" ++ escape_html h ++ "</li>\n")) ++
        "        </ul>\n") ∧
    (render_education_field edu ⟨[FieldPart.field "details"], cn⟩ =
      if edu.details = [] then ""
      else
        "        <ul class=\"education-details\">\n" ++
        String.join (edu.details.map (fun d =>
          "          <li>" ++ escape_html d ++ "</li>\n")) ++
        "        </ul>\n") := by
  constructor
  · simp [render_experience_field]
  · simp [render_education_field]

set_option maxRecDepth 100000 in
/-- C7: rendering the name-only person layout against the fully populated
test document yields output containing the name but not the email, phone,
or headline values. -/
theorem C7_layout_field_suppression :
    strOccurs "Test User" (generate_minimal_html testDoc nameOnlyLayout) = true ∧
    strOccurs "test@example.com" (generate_minimal_html testDoc nameOnlyLayout) = false ∧
    strOccurs "555-1234" (generate_minimal_html testDoc nameOnlyLayout) = false ∧
    strOccurs "Software Engineer" (generate_minimal_html testDoc nameOnlyLayout) = false := by
  exact ⟨rfl, rfl, rfl, rfl⟩

/-- C8: generate_html fails with the Unknown template error exactly for
selectors other than minimal, and for minimal returns the complete
rendered markup. -/
theorem C8_generate_html_template_dispatch (doc : JoblDocument) (layout : Layout) :
    (∀ template : String, template ≠ "minimal" →
      generate_html doc template layout =
        Except.error ("Unknown template: " ++ template)) ∧
    generate_html doc "minimal" layout =
      Except.ok (generate_minimal_html doc layout) := by
  constructor
  · intro t ht
    simp [generate_html, ht]
  · rfl

/-- Witness for C8: a concrete unknown selector produces the error. -/
theorem C8_generate_html_template_dispatch_witness :
    generate_html testDoc "fancy" nameOnlyLayout =
      Except.error "Unknown template: fancy" := by
  exact (C8_generate_html_template_dispatch testDoc nameOnlyLayout).1 "fancy" (by decide)

/-- Sections related by the C10 relation render identically: the skills
renderer never reads the layout section's fields. -/
theorem render_section_skills_indep (doc : JoblDocument) (s t : Section)
    (hname : s.name = t.name) (h : s.name = "skills" ∨ s.fields = t.fields) :
    render_section doc s = render_section doc t := by
  obtain ⟨sn, sf⟩ := s
  obtain ⟨tn, tf⟩ := t
  dsimp at hname h
  subst hname
  rcases h with h | h
  · subst h
    rfl
  · subst h
    rfl

/-- C10: the output of generate_html is unchanged between two layouts
that differ only in the field lists under their skills section headers,
for every document and template selector. -/
theorem C10_skills_output_layout_independent (doc : JoblDocument)
    (template : String) (l1 l2 : Layout)
    (h : List.Forall₂
      (fun s t => s.name = t.name ∧ (s.name = "skills" ∨ s.fields = t.fields))
      l1.sections l2.sections) :
    generate_html doc template l1 = generate_html doc template l2 := by
  obtain ⟨secs1⟩ := l1
  obtain ⟨secs2⟩ := l2
  dsimp at h
  have hmap : secs1.map (render_section doc) = secs2.map (render_section doc) := by
    induction h with
    | nil => rfl
    | cons hrel _ ih =>
      rw [List.map_cons, List.map_cons, ih,
        render_section_skills_indep doc _ _ hrel.1 hrel.2]
  by_cases ht : template = "minimal" <;>
    simp [generate_html, ht, generate_minimal_html, hmap]

/-- Witness for C10: two layouts with differing skills field lists render
identically on the test document. -/
theorem C10_skills_output_layout_independent_witness :
    generate_html testDoc "minimal" skillsLayoutA =
      generate_html testDoc "minimal" skillsLayoutB := by
  exact C10_skills_output_layout_independent testDoc "minimal" skillsLayoutA skillsLayoutB
    (List.Forall₂.cons ⟨rfl, Or.inl rfl⟩ List.Forall₂.nil)

end SRG

